import Mathlib

/-!
Shallow embedding of the dataset fetch engine of `datasets.py` (repository
`op2ob`).  Remote I/O (the S3 listing response, the aria2c subprocess, the
HTTP stream, the local filesystem, the wall clock, the interactive prompt)
is made explicit as parameters, and every function of the source that the
verified claims touch is translated into a pure Lean function over those
parameters.  Machine integers of the source are modelled as `Nat`/`Int`
(sizes and counters never overflow in the source's Python).
-/

set_option maxRecDepth 4000

/-- One `Contents` entry of the S3 listing response.  The source guards on
`key_elem is not None`, so a key is always present for an entry that is
processed; `Size` and `ETag` elements may be absent (`size_elem is not None`
/ `etag_elem is not None` guards in `list_datasets`). -/
structure Entry where
  key : String
  size : Option Nat
  etag : Option String
deriving DecidableEq, Repr

/-- A parsed file record, the dict `{"name": .., "key": .., "size": .., "md5": ..}`
built in the `dataset_name` branch of `list_datasets`. -/
structure FileRecord where
  name : String
  key : String
  size : Nat
  md5 : String
deriving DecidableEq, Repr

/-- The per-dataset accumulator value of `dataset_info` in `list_datasets`:
`{"size": .., "file_count": ..}`. -/
structure DatasetInfo where
  size : Nat
  file_count : Nat
deriving DecidableEq, Repr

/-- One element of the summary list returned by `list_datasets(task)`:
`{"name": .., "size": .., "file_count": ..}`.  The derived presentation
field `size_human` (a `humanize` rendering of `size`) is omitted. -/
structure DatasetSummary where
  name : String
  size : Nat
  file_count : Nat
deriving DecidableEq, Repr

/-- `TASK_TO_S3_PATH.get(task, task)`: the two cell-cell-communication task
names share the S3 path `cell_cell_communication`; every other task maps to
itself. -/
def get_s3_task_path (task : String) : String :=
  if task = "cell_cell_communication_source_target" then "cell_cell_communication"
  else if task = "cell_cell_communication_ligand_target" then "cell_cell_communication"
  else task

/-!
String primitives, modelled over the character list of a `String` so that
every operation is structurally recursive (Python strings are character
sequences; `startswith`/`endswith` are prefix/suffix tests, `split("/")`
splits on one separator character, `sorted` sorts by the lexicographic
character order, `strip` drops surrounding whitespace).
-/

/-- Python `s.startswith(pre)`. -/
def strStartsWith (s pre : String) : Bool := pre.data.isPrefixOf s.data

/-- Python `s.endswith(suf)`. -/
def strEndsWith (s suf : String) : Bool := suf.data.isSuffixOf s.data

/-- Python `s.split(sep)` for a one-character separator: always a
non-empty list of (possibly empty) segments. -/
def splitOnChar (sep : Char) : List Char → List (List Char)
  | [] => [[]]
  | c :: rest =>
      let r := splitOnChar sep rest
      if c = sep then [] :: r
      else (c :: r.headD []) :: r.tail

/-- Python `sep.join(parts)` for a one-character separator. -/
def joinWithChar (sep : Char) : List (List Char) → List Char
  | [] => []
  | [x] => x
  | x :: xs => x ++ sep :: joinWithChar sep xs

/-- Lexicographic order on character lists (the comparison behind Python's
default string `sorted`). -/
def charListLe : List Char → List Char → Bool
  | [], _ => true
  | _ :: _, [] => false
  | a :: as, b :: bs => if a < b then true else if b < a then false else charListLe as bs

/-- Sorted insertion for `sortStrings`. -/
def insertSorted (x : String) : List String → List String
  | [] => [x]
  | y :: ys => if charListLe x.data y.data then x :: y :: ys else y :: insertSorted x ys

/-- Python `sorted` on strings: insertion sort by the lexicographic
character order (the keys being sorted are distinct, so any sorting
algorithm produces the same list as CPython's). -/
def sortStrings : List String → List String
  | [] => []
  | x :: xs => insertSorted x (sortStrings xs)

/-- Python whitespace for `str.strip()`. -/
def isPySpace (c : Char) : Bool :=
  c = ' ' || c = '\t' || c = '\n' || c = '\r' || c = '\x0b' || c = '\x0c'

/-- Python `s.strip()`: drop all leading and trailing whitespace. -/
def pyStrip (s : String) : String :=
  String.mk (((s.data.dropWhile (fun c => isPySpace c)).reverse.dropWhile
    (fun c => isPySpace c)).reverse)

/-- Python `s.lower()` (ASCII case folding suffices for hex checksums). -/
def strToLower (s : String) : String := String.mk (s.data.map Char.toLower)

/-- Python `s.strip('"')` for the ETag: drop all leading and all trailing
`"` characters. -/
def stripQuotes (s : String) : String :=
  String.mk (((s.data.dropWhile (fun c => c = '"')).reverse.dropWhile (fun c => c = '"')).reverse)

/-- The `dataset_name` branch of `list_datasets`: one record per entry whose
key starts with `resources/<s3_task>/datasets/<dataset_name>/` and does not
end with `/`; `name` is the final path segment of the key, `size` defaults
to 0, `md5` is the ETag with quotes stripped (default `""`). -/
def list_datasets_files (task dataset_name : String) (entries : List Entry) : List FileRecord :=
  let s3_task := get_s3_task_path task
  let dataset_prefix := "resources/" ++ s3_task ++ "/datasets/" ++ dataset_name ++ "/"
  entries.filterMap fun e =>
    if strStartsWith e.key dataset_prefix && !(strEndsWith e.key "/") then
      some { name := String.mk ((splitOnChar '/' e.key.data).getLastD [])
             key := e.key
             size := e.size.getD 0
             md5 := stripQuotes (e.etag.getD "") }
    else none

/-- The dataset identifier extracted in the summary branch of `list_datasets`:
`"/".join(key[len(prefix):].split("/")[:-1])`. -/
def dataset_path_of (pre key : String) : String :=
  String.mk (joinWithChar '/' ((splitOnChar '/' (key.data.drop pre.length)).dropLast))

/-- In-place dict update of `dataset_info`: add the entry's size and bump
`file_count` for an existing dataset path, or insert `{size, 1}`. -/
def updateInfo : List (String × DatasetInfo) → String → Nat → List (String × DatasetInfo)
  | [], name, sz => [(name, ⟨sz, 1⟩)]
  | (n, info) :: rest, name, sz =>
      if n = name then (n, ⟨info.size + sz, info.file_count + 1⟩) :: rest
      else (n, info) :: updateInfo rest name sz

/-- The body of the summary-branch loop of `list_datasets` for one entry:
skip pseudo-directory keys (trailing slash), skip keys outside the prefix,
skip keys whose dataset path is empty, otherwise accumulate into
`dataset_info`. -/
def summaries_step (pre : String) (acc : List (String × DatasetInfo)) (e : Entry) :
    List (String × DatasetInfo) :=
  if strEndsWith e.key "/" then acc
  else if strStartsWith e.key pre then
    let dp := dataset_path_of pre e.key
    if dp = "" then acc else updateInfo acc dp (e.size.getD 0)
  else acc

/-- Keys of the accumulated `dataset_info` dict (insertion order). -/
def infoKeys (l : List (String × DatasetInfo)) : List String := l.map (fun p => p.1)

/-- The summary branch of `list_datasets`: fold the listing entries into
`dataset_info`, then emit one summary per dataset path in sorted key order. -/
def list_datasets_summaries (task : String) (entries : List Entry) : List DatasetSummary :=
  let s3_task := get_s3_task_path task
  let pre := "resources/" ++ s3_task ++ "/datasets/"
  let info := entries.foldl (summaries_step pre) []
  (sortStrings (infoKeys info)).map (fun k =>
    let i := (info.lookup k).getD ⟨0, 0⟩
    { name := k, size := i.size, file_count := i.file_count })

/-- Sum of `file_count` over a summary list. -/
def sumFileCount (l : List DatasetSummary) : Nat := (l.map (fun s => s.file_count)).sum

/-!
MD5, modelling `hashlib.md5` as used by `calculate_md5`: the full MD5
algorithm over a byte list, digest rendered as 32 lowercase hex characters
(`hexdigest()`).
-/

/-- Per-round additive constants of MD5 (`floor(abs(sin(i+1)) * 2^32)`). -/
def md5K : List Nat :=
  [0xd76aa478, 0xe8c7b756, 0x242070db, 0xc1bdceee,
   0xf57c0faf, 0x4787c62a, 0xa8304613, 0xfd469501,
   0x698098d8, 0x8b44f7af, 0xffff5bb1, 0x895cd7be,
   0x6b901122, 0xfd987193, 0xa679438e, 0x49b40821,
   0xf61e2562, 0xc040b340, 0x265e5a51, 0xe9b6c7aa,
   0xd62f105d, 0x02441453, 0xd8a1e681, 0xe7d3fbc8,
   0x21e1cde6, 0xc33707d6, 0xf4d50d87, 0x455a14ed,
   0xa9e3e905, 0xfcefa3f8, 0x676f02d9, 0x8d2a4c8a,
   0xfffa3942, 0x8771f681, 0x6d9d6122, 0xfde5380c,
   0xa4beea44, 0x4bdecfa9, 0xf6bb4b60, 0xbebfbc70,
   0x289b7ec6, 0xeaa127fa, 0xd4ef3085, 0x04881d05,
   0xd9d4d039, 0xe6db99e5, 0x1fa27cf8, 0xc4ac5665,
   0xf4292244, 0x432aff97, 0xab9423a7, 0xfc93a039,
   0x655b59c3, 0x8f0ccc92, 0xffeff47d, 0x85845dd1,
   0x6fa87e4f, 0xfe2ce6e0, 0xa3014314, 0x4e0811a1,
   0xf7537e82, 0xbd3af235, 0x2ad7d2bb, 0xeb86d391]

/-- Per-round left-rotation amounts of MD5. -/
def md5S : List Nat :=
  [7, 12, 17, 22, 7, 12, 17, 22, 7, 12, 17, 22, 7, 12, 17, 22,
   5, 9, 14, 20, 5, 9, 14, 20, 5, 9, 14, 20, 5, 9, 14, 20,
   4, 11, 16, 23, 4, 11, 16, 23, 4, 11, 16, 23, 4, 11, 16, 23,
   6, 10, 15, 21, 6, 10, 15, 21, 6, 10, 15, 21, 6, 10, 15, 21]

/-- Left rotation of a 32-bit word held in a `Nat`. -/
def rotl32 (x s : Nat) : Nat :=
  ((x <<< s) % 4294967296) ||| (x >>> (32 - s))

/-- The round function of MD5 (bitwise complement written as xor with the
32-bit all-ones mask). -/
def md5F (i b c d : Nat) : Nat :=
  if i < 16 then (b &&& c) ||| ((b ^^^ 0xFFFFFFFF) &&& d)
  else if i < 32 then (d &&& b) ||| ((d ^^^ 0xFFFFFFFF) &&& c)
  else if i < 48 then (b ^^^ c) ^^^ d
  else c ^^^ (b ||| (d ^^^ 0xFFFFFFFF))

/-- The message-word index selected in round `i` of MD5. -/
def md5g (i : Nat) : Nat :=
  if i < 16 then i
  else if i < 32 then (5 * i + 1) % 16
  else if i < 48 then (3 * i + 5) % 16
  else (7 * i) % 16

/-- MD5 padding: append `0x80`, zero bytes to reach 56 mod 64, then the
bit length as 8 little-endian bytes. -/
def md5pad (msg : List Nat) : List Nat :=
  let len := msg.length
  let zeros := (56 + 64 - ((len + 1) % 64)) % 64
  msg ++ [0x80] ++ List.replicate zeros 0 ++
    ((List.range 8).map (fun i => ((8 * len) >>> (8 * i)) % 256))

/-- One 512-bit chunk of MD5: 64 rounds over the state `(A, B, C, D)`, then
add the chunk result into the running state. -/
def md5ProcessChunk (chunk : List Nat) (h : Nat × Nat × Nat × Nat) : Nat × Nat × Nat × Nat :=
  let M := fun g => chunk.getD (4 * g) 0 + 256 * chunk.getD (4 * g + 1) 0 +
    65536 * chunk.getD (4 * g + 2) 0 + 16777216 * chunk.getD (4 * g + 3) 0
  let step := fun (st : Nat × Nat × Nat × Nat) (i : Nat) =>
    let (a, b, c, d) := st
    let f := (md5F i b c d + a + md5K.getD i 0 + M (md5g i)) % 4294967296
    (d, (b + rotl32 f (md5S.getD i 0)) % 4294967296, b, c)
  let (a1, b1, c1, d1) := (List.range 64).foldl step (h.1, h.2.1, h.2.2.1, h.2.2.2)
  ((h.1 + a1) % 4294967296, (h.2.1 + b1) % 4294967296,
   (h.2.2.1 + c1) % 4294967296, (h.2.2.2 + d1) % 4294967296)

/-- The four 32-bit state words of the MD5 of a byte list. -/
def md5core (msg : List Nat) : Nat × Nat × Nat × Nat :=
  let padded := md5pad msg
  (List.range (padded.length / 64)).foldl
    (fun h i => md5ProcessChunk ((padded.drop (64 * i)).take 64) h)
    (0x67452301, 0xefcdab89, 0x98badcfe, 0x10325476)

/-- One lowercase hex digit. -/
def hexDigitChar (n : Nat) : Char :=
  if n < 10 then Char.ofNat (48 + n) else Char.ofNat (87 + n)

/-- Two lowercase hex digits of one byte. -/
def byteHex (b : Nat) : List Char := [hexDigitChar (b / 16), hexDigitChar (b % 16)]

/-- Little-endian bytes of a 32-bit word. -/
def wordLEBytes (w : Nat) : List Nat :=
  [w % 256, (w / 256) % 256, (w / 65536) % 256, (w / 16777216) % 256]

/-- Model of `calculate_md5`: MD5 of the file content (a byte list), as the
32-character lowercase hex digest string of `hexdigest()`. -/
def calculate_md5 (content : List Nat) : String :=
  let (a, b, c, d) := md5core content
  String.mk (((wordLEBytes a ++ wordLEBytes b ++ wordLEBytes c ++ wordLEBytes d).map byteHex).flatten)

example : calculate_md5 [] = "d41d8cd98f00b204e9800998ecf8427e" := by decide
example : calculate_md5 [97, 98, 99] = "900150983cd24fb0d6963f7d28e17f72" := by decide

/-!
Transfer Strategy: `fetch_file_aria2` and `fetch_file_fallback`.
-/

/-- The MD5-format gate of `fetch_file_aria2`: the checksum is non-empty,
32 characters long, and every character of its lowercasing is a hex digit.
(S3 ETags of multipart uploads look like `<hash>-<partcount>` and fail this
test.) -/
def is_valid_md5 (expected_md5 : String) : Bool :=
  !(expected_md5 == "") && (expected_md5.length == 32) &&
    (strToLower expected_md5).data.all (fun c => "0123456789abcdef".data.contains c)

/-- The aria2c command line built by `fetch_file_aria2`, kept structured:
the fixed flags, the optional `--checksum=md5=...` flag (present exactly
when `is_valid_md5` holds), and the trailing directory/output/url
arguments appended by `cmd.extend`. -/
structure Aria2Cmd where
  base : List String
  checksum : Option String
  tail : List String
deriving DecidableEq, Repr

/-- Build the aria2c invocation of `fetch_file_aria2` for a download
directory, output name, url and expected checksum. -/
def build_aria2_cmd (dir out url expected_md5 : String) : Aria2Cmd :=
  { base := ["aria2c", "--continue=true", "--max-connection-per-server=8", "--split=8",
             "--file-allocation=none", "--auto-file-renaming=false", "--allow-overwrite=true",
             "--show-console-readout=true", "--console-log-level=notice",
             "--human-readable=true", "--download-result=hide"]
    checksum := if is_valid_md5 expected_md5 then some ("--checksum=md5=" ++ expected_md5) else none
    tail := ["--dir=" ++ dir, "--out=" ++ out, url] }

/-- The flat argument list handed to `subprocess.run`. -/
def Aria2Cmd.toList (c : Aria2Cmd) : List String :=
  c.base ++ c.checksum.toList ++ c.tail

/-- Environment of one `fetch_file_aria2` call: what `subprocess.run(cmd)`
returned and what `local_path.stat().st_size` reports afterwards. -/
structure Aria2Env where
  exitCode : Nat
  statSize : Nat
deriving DecidableEq, Repr

/-- Model of `fetch_file_aria2` after the command was built: fail when
aria2c is unavailable; on exit code 0 verify the on-disk size against the
expected size (the checksum is not consulted again — the non-simple case
only prints a note); any non-zero exit code fails. -/
def fetch_file_aria2 (available : Bool) (env : Aria2Env)
    (expected_md5 : String) (expected_size : Nat) : Bool :=
  if !available then false
  else if env.exitCode = 0 then
    if env.statSize ≠ expected_size then false else true
  else false

/-- How one fallback HTTP transfer went: the stream completed and the file
holds `content`, or an exception was raised after writing some bytes, or an
exception was raised before the output file was opened (initial file
existence at the path is `preExisting`). -/
inductive StreamOutcome where
  | ok (content : List Nat)
  | raiseAfter (written : List Nat)
  | raiseBeforeOpen (preExisting : Bool)
deriving DecidableEq, Repr

/-- Result of one `fetch_file_fallback` call: the returned boolean and
whether the local file exists on disk afterwards. -/
structure FallbackResult where
  success : Bool
  fileExists : Bool
deriving DecidableEq, Repr

/-- Model of `fetch_file_fallback`: on a completed stream, check the actual
size against `expected_size` and then the computed MD5 against
`expected_md5` unconditionally — on either mismatch return false with the
written file left in place; on an exception the handler deletes the file
when it exists and returns false. -/
def fetch_file_fallback (outcome : StreamOutcome)
    (expected_md5 : String) (expected_size : Nat) : FallbackResult :=
  match outcome with
  | .ok content =>
      if content.length ≠ expected_size then ⟨false, true⟩
      else if calculate_md5 content ≠ expected_md5 then ⟨false, true⟩
      else ⟨true, true⟩
  | .raiseAfter _ => ⟨false, false⟩
  | .raiseBeforeOpen _ => ⟨false, false⟩

/-!
Listing Cache: `load_cache` / `save_cache`.  The cache file is a keyed
store from paths to `{timestamp, datasets}` records; `time.time()` is an
explicit `Int` parameter.
-/

/-- The JSON blob written by `save_cache`. -/
structure CacheData (α : Type) where
  timestamp : Int
  datasets : α

/-- Model of `save_cache`: overwrite the record at `path` with the current
time and the payload. -/
def save_cache {α : Type} (now : Int) (store : String → Option (CacheData α))
    (path : String) (datasets : α) : String → Option (CacheData α) :=
  fun p => if p = path then some ⟨now, datasets⟩ else store p

/-- Model of `load_cache`: a missing (or unreadable) record is a miss; a
record is returned only while `now - timestamp < 3600`. -/
def load_cache {α : Type} (now : Int) (store : String → Option (CacheData α))
    (path : String) : Option α :=
  match store path with
  | none => none
  | some d => if now - d.timestamp < 3600 then some d.datasets else none

/-!
Download Coordinator and Fetch Orchestrator: `download_single_file_worker`,
`fetch_entire_dataset`, `fetch_task`, `fetch_single_file`.
-/

/-- Per-file transfer environment shared by the worker, `fetch_single_file`
and `fetch_entire_dataset`: the `shutil.which("aria2c")` probe result, and
the per-file outcome of the aria2c subprocess respectively of the fallback
HTTP stream. -/
structure TransferEnv where
  aria2Avail : Bool
  aria2Env : FileRecord → Aria2Env
  stream : FileRecord → StreamOutcome

/-- The `if check_aria2(): fetch_file_aria2(...) else: fetch_file_fallback(...)`
block shared by `fetch_single_file` and `download_single_file_worker`. -/
def run_transfer (env : TransferEnv) (f : FileRecord) : Bool :=
  if env.aria2Avail then fetch_file_aria2 true (env.aria2Env f) f.md5 f.size
  else (fetch_file_fallback (env.stream f) f.md5 f.size).success

/-- Environment of a dataset-level fetch: the transfer environment plus the
local filesystem (on-disk size of a file of the dataset directory, `none`
when absent), whether the dataset directory exists, and the answer the
`Confirm.ask` prompt would get. -/
structure DatasetEnv extends TransferEnv where
  fs : String → Option Nat
  dirExists : Bool
  confirmAsk : Bool

/-- Result of `download_single_file_worker`: the success boolean it returns
and whether it actually dispatched a transfer (false when the size-equal
pre-check skipped the file). -/
structure WorkerResult where
  success : Bool
  transferred : Bool
deriving DecidableEq, Repr

/-- Model of `download_single_file_worker`: a file already present whose
on-disk size equals the expected size is reported successful with no
transfer; otherwise one transfer runs via the chosen backend. -/
def download_single_file_worker (env : DatasetEnv) (f : FileRecord) : WorkerResult :=
  if env.fs f.name = some f.size then ⟨true, false⟩
  else ⟨run_transfer env.toTransferEnv f, true⟩

/-- Result of `fetch_entire_dataset` / `fetch_task`: the returned boolean,
the number of file transfers actually dispatched, and whether the
interactive confirmation prompt was shown. -/
structure FetchResult where
  success : Bool
  attempts : Nat
  prompted : Bool
deriving DecidableEq, Repr

/-- The worker-pool section of `fetch_entire_dataset`: every file is handed
to `download_single_file_worker`, successes are tallied, and the call
succeeds iff every file succeeded.  (Completion order is irrelevant to the
tally, so the pool is modelled by a map.) -/
def run_workers (env : DatasetEnv) (files : List FileRecord) : FetchResult :=
  let results := files.map (download_single_file_worker env)
  { success := results.countP (fun r => r.success) == files.length
    attempts := results.countP (fun r => r.transferred)
    prompted := false }

/-- Model of `fetch_entire_dataset` (file list already resolved from cache
or listing): an empty file list fails; without `skip_confirmation`, the
missing amount is the total size of the files whose names are absent from
the dataset directory (presence only — sizes are not compared here); when
something is missing the prompt is shown and a refusal cancels; when
nothing is missing the call returns success immediately; otherwise all
files go through the worker pool. -/
def fetch_entire_dataset (env : DatasetEnv) (files : List FileRecord)
    (skip_confirmation : Bool) : FetchResult :=
  if files = [] then ⟨false, 0, false⟩
  else
    let total_size : Nat := (files.map (fun f => f.size)).sum
    let missing_size : Nat :=
      if env.dirExists then
        ((files.filter (fun f => (env.fs f.name).isNone)).map (fun f => f.size)).sum
      else total_size
    if !skip_confirmation then
      if missing_size > 0 then
        if !env.confirmAsk then ⟨false, 0, true⟩
        else { run_workers env files with prompted := true }
      else ⟨true, 0, false⟩
    else run_workers env files

/-- Environment of a task-level fetch: the resolved file listing of each
dataset and each dataset's local environment. -/
structure TaskEnv where
  filesOf : String → List FileRecord
  dsEnv : String → DatasetEnv

/-- Model of `fetch_task` (dataset summaries already resolved): an empty
dataset list fails before the prompt; the typed phrase gate compares the
stripped input line against `yes I am sure` and anything else cancels with
no transfer; on the exact phrase each dataset is fetched sequentially with
`skip_confirmation=True` and the call succeeds iff every dataset
succeeded.  `prompted` records whether the phrase prompt was shown, and
`attempts` totals the file transfers dispatched across datasets. -/
def fetch_task (env : TaskEnv) (datasets : List DatasetSummary) (rawInput : String) :
    FetchResult :=
  if datasets = [] then ⟨false, 0, false⟩
  else if pyStrip rawInput ≠ "yes I am sure" then ⟨false, 0, true⟩
  else
    let results := datasets.map
      (fun d => fetch_entire_dataset (env.dsEnv d.name) (env.filesOf d.name) true)
    { success := results.countP (fun r => r.success) == datasets.length
      attempts := (results.map (fun r => r.attempts)).sum
      prompted := true }

/-- The exception kinds named by the specification for the caller-facing
operations. -/
inductive DatasetsError where
  | notFound
  | listing
deriving DecidableEq, Repr

/-- Result of `fetch_single_file`: the returned boolean and whether a
transfer was dispatched. -/
structure SingleFileResult where
  success : Bool
  transferred : Bool
deriving DecidableEq, Repr

/-- Model of `fetch_single_file` (file listing already resolved): the
target is the first record whose `name` equals `filename`; when none
matches the function prints an error and returns `False` — it raises
nothing, so the model never produces `Except.error`; when found, one
transfer runs via the chosen backend. -/
def fetch_single_file (env : TransferEnv) (files : List FileRecord) (filename : String) :
    Except DatasetsError SingleFileResult :=
  match files.find? (fun fi => fi.name == filename) with
  | none => .ok ⟨false, false⟩
  | some target => .ok ⟨run_transfer env target, true⟩

/-!
Helper lemmas about the summary aggregation of `list_datasets`.
-/

/-- The condition under which the summary branch counts an entry: not a
pseudo-directory, under the prefix, and with a non-empty dataset path. -/
def summaryQualifies (pre : String) (e : Entry) : Bool :=
  !(strEndsWith e.key "/") && strStartsWith e.key pre && !(dataset_path_of pre e.key == "")

/-- Sum of the `file_count` fields held in the `dataset_info` accumulator. -/
def sumCounts (l : List (String × DatasetInfo)) : Nat :=
  (l.map (fun p => p.2.file_count)).sum

theorem summaries_step_eq (pre : String) (acc : List (String × DatasetInfo)) (e : Entry) :
    summaries_step pre acc e =
      if summaryQualifies pre e then updateInfo acc (dataset_path_of pre e.key) (e.size.getD 0)
      else acc := by
  unfold summaries_step summaryQualifies
  by_cases h1 : strEndsWith e.key "/" <;>
    by_cases h2 : strStartsWith e.key pre <;>
      by_cases h3 : dataset_path_of pre e.key = "" <;>
        simp [h1, h2, h3]

theorem sumCounts_updateInfo (acc : List (String × DatasetInfo)) (name : String) (sz : Nat) :
    sumCounts (updateInfo acc name sz) = sumCounts acc + 1 := by
  induction acc with
  | nil => simp [updateInfo, sumCounts]
  | cons p rest ih =>
      obtain ⟨n, info⟩ := p
      by_cases h : n = name <;> simp [updateInfo, h, sumCounts] <;>
        simp [sumCounts] at ih <;> omega

theorem sumCounts_foldl (pre : String) (entries : List Entry) :
    ∀ acc, sumCounts (entries.foldl (summaries_step pre) acc)
      = sumCounts acc + entries.countP (summaryQualifies pre) := by
  induction entries with
  | nil => intro acc; simp
  | cons e rest ih =>
      intro acc
      rw [List.foldl_cons, ih, List.countP_cons, summaries_step_eq]
      by_cases h : summaryQualifies pre e <;> simp [h, sumCounts_updateInfo] <;> omega

theorem infoKeys_updateInfo (acc : List (String × DatasetInfo)) (name : String) (sz : Nat) :
    infoKeys (updateInfo acc name sz) =
      if name ∈ infoKeys acc then infoKeys acc else infoKeys acc ++ [name] := by
  induction acc with
  | nil => simp [updateInfo, infoKeys]
  | cons p rest ih =>
      obtain ⟨n, info⟩ := p
      by_cases h : n = name
      · subst h; simp [updateInfo, infoKeys]
      · have hne : ¬(name = n) := fun hh => h hh.symm
        simp only [updateInfo, if_neg h, infoKeys, List.map_cons] at ih ⊢
        rw [ih]
        by_cases hm : name ∈ List.map (fun p => p.1) rest
        · rw [if_pos hm, if_pos (by simp [List.mem_cons, hm])]
        · rw [if_neg hm, if_neg (by simp [List.mem_cons, hne, hm])]
          simp

theorem nodup_infoKeys_updateInfo (acc : List (String × DatasetInfo)) (name : String) (sz : Nat)
    (h : (infoKeys acc).Nodup) : (infoKeys (updateInfo acc name sz)).Nodup := by
  rw [infoKeys_updateInfo]
  by_cases hm : name ∈ infoKeys acc
  · simpa [hm] using h
  · simp [hm, List.nodup_append, h]

theorem nodup_infoKeys_foldl (pre : String) (entries : List Entry) :
    ∀ acc, (infoKeys acc).Nodup →
      (infoKeys (entries.foldl (summaries_step pre) acc)).Nodup := by
  induction entries with
  | nil => intro acc h; simpa using h
  | cons e rest ih =>
      intro acc h
      rw [List.foldl_cons, summaries_step_eq]
      by_cases hq : summaryQualifies pre e
      · rw [if_pos hq]
        exact ih _ (nodup_infoKeys_updateInfo acc _ _ h)
      · rw [if_neg hq]
        exact ih _ h

theorem map_lookup_file_count (info : List (String × DatasetInfo))
    (h : (infoKeys info).Nodup) :
    info.map (fun p => ((info.lookup p.1).getD ⟨0, 0⟩).file_count)
      = info.map (fun p => p.2.file_count) := by
  induction info with
  | nil => rfl
  | cons p rest ih =>
      obtain ⟨n, i⟩ := p
      simp only [infoKeys, List.map_cons, List.nodup_cons] at h
      rw [List.map_cons, List.map_cons]
      congr 1
      · simp [List.lookup_cons_self]
      · have hstep : rest.map (fun p => ((((n, i) :: rest).lookup p.1).getD ⟨0, 0⟩).file_count)
            = rest.map (fun p => ((rest.lookup p.1).getD ⟨0, 0⟩).file_count) := by
          apply List.map_congr_left
          intro q hq
          have hne : (q.1 == n) = false := by
            rw [beq_eq_false_iff_ne]
            intro hqn
            exact h.1 (hqn ▸ List.mem_map_of_mem (fun p => p.1) hq)
          rw [List.lookup_cons, hne]
        rw [hstep, ih h.2]

theorem insertSorted_perm (x : String) (l : List String) :
    (insertSorted x l).Perm (x :: l) := by
  induction l with
  | nil => simp [insertSorted]
  | cons y ys ih =>
      unfold insertSorted
      by_cases h : charListLe x.data y.data
      · rw [if_pos h]
      · rw [if_neg h]
        exact (ih.cons y).trans (List.Perm.swap x y ys)

theorem sortStrings_perm (l : List String) : (sortStrings l).Perm l := by
  induction l with
  | nil => simp [sortStrings]
  | cons x xs ih =>
      unfold sortStrings
      exact (insertSorted_perm x (sortStrings xs)).trans (ih.cons x)

theorem sum_over_sorted_keys (info : List (String × DatasetInfo))
    (hnd : (infoKeys info).Nodup) :
    (((sortStrings (infoKeys info)).map (fun k =>
        let i := (info.lookup k).getD ⟨0, 0⟩
        ({ name := k, size := i.size, file_count := i.file_count } : DatasetSummary))).map
          (fun s => s.file_count)).sum = sumCounts info := by
  rw [List.map_map]
  have hperm := (sortStrings_perm (infoKeys info)).map
    ((fun s : DatasetSummary => s.file_count) ∘ (fun k =>
      let i := (info.lookup k).getD ⟨0, 0⟩
      ({ name := k, size := i.size, file_count := i.file_count } : DatasetSummary)))
  rw [hperm.sum_eq]
  show ((info.map (fun p => p.1)).map (fun k => ((info.lookup k).getD ⟨0, 0⟩).file_count)).sum = _
  rw [List.map_map]
  show (info.map (fun p => ((info.lookup p.1).getD ⟨0, 0⟩).file_count)).sum = _
  rw [map_lookup_file_count info hnd]
  rfl

/-!
Claim theorems.
-/

/-- Definition following the words of the specification's claim (for
comparison against the code's aggregation): the number of non-directory
keys — keys not ending in `/` — present under the task prefix in the
listing response. -/
def specNonDirKeyCount (pre : String) (entries : List Entry) : Nat :=
  entries.countP (fun e => strStartsWith e.key pre && !(strEndsWith e.key "/"))

/-- C5 counterexample: a listing response holding exactly one non-directory
key under the task prefix whose key sits directly under `datasets/` (its
dataset identifier is empty).  `list_datasets` discards it, so the
fileCount sum is 0 while the count of non-directory keys under the prefix
is 1: the claimed equality fails. -/
theorem filecount_sum_counterexample :
    sumFileCount (list_datasets_summaries "denoising"
        [⟨"resources/denoising/datasets/stray.txt", some 5, none⟩]) = 0
    ∧ specNonDirKeyCount "resources/denoising/datasets/"
        [⟨"resources/denoising/datasets/stray.txt", some 5, none⟩] = 1 := by
  constructor
  · decide
  · decide

/-- C5 amended: the sum of `file_count` over the returned dataset summaries
equals the number of listing entries whose key does not end in `/`, starts
with the task's S3 prefix, and has a non-empty dataset identifier (a
directory component strictly between the prefix and the file name); keys
directly under the prefix are discarded by the aggregation. -/
theorem filecount_sum_amended (task : String) (entries : List Entry) :
    sumFileCount (list_datasets_summaries task entries)
      = entries.countP
          (summaryQualifies ("resources/" ++ get_s3_task_path task ++ "/datasets/")) := by
  have h0 : (infoKeys ([] : List (String × DatasetInfo))).Nodup := by simp [infoKeys]
  have hnd := nodup_infoKeys_foldl ("resources/" ++ get_s3_task_path task ++ "/datasets/")
    entries [] h0
  have hs := sum_over_sorted_keys
    (entries.foldl (summaries_step ("resources/" ++ get_s3_task_path task ++ "/datasets/")) [])
    hnd
  calc sumFileCount (list_datasets_summaries task entries)
      = sumCounts (entries.foldl
          (summaries_step ("resources/" ++ get_s3_task_path task ++ "/datasets/")) []) := hs
    _ = entries.countP
          (summaryQualifies ("resources/" ++ get_s3_task_path task ++ "/datasets/")) := by
        rw [sumCounts_foldl]
        simp [sumCounts]

/-!
Concrete environments used by witnesses and counterexamples.
-/

/-- A sample file record of a dataset listing. -/
def file0 : FileRecord :=
  ⟨"a.h5", "resources/denoising/datasets/cellxgene/a.h5", 100, "abc"⟩

/-- A transfer environment in which aria2c is available, exits 0, and the
downloaded file has the expected size. -/
def transferEnv0 : TransferEnv :=
  { aria2Avail := true
    aria2Env := fun _ => ⟨0, 100⟩
    stream := fun _ => .ok [] }

/-- A dataset environment whose directory holds `a.h5` at its expected
size of 100 bytes. -/
def datasetEnv0 : DatasetEnv :=
  { toTransferEnv := transferEnv0
    fs := fun n => if n = "a.h5" then some 100 else none
    dirExists := true
    confirmAsk := false }

/-- A dataset environment in which every file exists but with a wrong
on-disk size (999 bytes). -/
def wrongSizeEnv0 : DatasetEnv :=
  { toTransferEnv := transferEnv0
    fs := fun _ => some 999
    dirExists := true
    confirmAsk := false }

/-- A task environment: every dataset resolves to the single file `file0`
in the `datasetEnv0` filesystem. -/
def taskEnv0 : TaskEnv :=
  { filesOf := fun _ => [file0]
    dsEnv := fun _ => datasetEnv0 }

/-!
C1 — checksum gating across the two backends.
-/

/-- C1 counterexample: the claim fails on the fallback backend and on the
lowercase-only reading of the gate.  (1) A completed fallback transfer of
the empty file with the composite checksum `abc123-2` and the correct
expected size returns false — the non-simple checksum alone blocks the
transfer; (2) the same transfer with the file's true MD5 digest succeeds,
so the checksum was the only cause; (3) a 32-character uppercase hex
checksum, which is not "32 lowercase hex characters", nevertheless enables
the aria2c `--checksum` flag. -/
theorem checksum_gating_counterexample :
    (fetch_file_fallback (StreamOutcome.ok []) "abc123-2" 0).success = false
    ∧ (fetch_file_fallback (StreamOutcome.ok []) "d41d8cd98f00b204e9800998ecf8427e" 0).success = true
    ∧ (build_aria2_cmd "datasets/cellxgene" "a.h5" "u" "0123456789ABCDEF0123456789ABCDEF").checksum.isSome
        = true := by
  refine ⟨by decide, by decide, by decide⟩

/-- C1 amended: in the accelerated backend the `--checksum` flag is passed
exactly when the checksum is non-empty, 32 characters and hex after
lowercasing, and the checksum value never otherwise influences the result
(`fetch_file_aria2` ignores it after the command is built); in the fallback
backend MD5 verification is always attempted, and a completed transfer
succeeds exactly when the size matches and the computed digest equals the
supplied checksum — so a composite or empty checksum always fails there. -/
theorem checksum_gating_amended :
    (∀ dir out url m, (build_aria2_cmd dir out url m).checksum.isSome = is_valid_md5 m)
    ∧ (∀ avail env m₁ m₂ size,
        fetch_file_aria2 avail env m₁ size = fetch_file_aria2 avail env m₂ size)
    ∧ (∀ content m size,
        (fetch_file_fallback (StreamOutcome.ok content) m size).success = true
          ↔ (content.length = size ∧ calculate_md5 content = m)) := by
  refine ⟨?_, ?_, ?_⟩
  · intro dir out url m
    unfold build_aria2_cmd
    by_cases h : is_valid_md5 m <;> simp [h]
  · intro avail env m₁ m₂ size
    rfl
  · intro content m size
    unfold fetch_file_fallback
    by_cases h1 : content.length = size
    · by_cases h2 : calculate_md5 content = m
      · simp [h1, h2]
      · simp [h1, h2]
    · simp [h1]

/-!
C2 — fallback verification failure and the fate of the written file.
-/

/-- C2 counterexample: a fallback transfer that completes the HTTP stream
with one byte when two were expected returns false, but the written file
still exists on disk afterwards — it is not deleted. -/
theorem fallback_mismatch_counterexample :
    (fetch_file_fallback (StreamOutcome.ok [0]) "abc" 2).success = false
    ∧ (fetch_file_fallback (StreamOutcome.ok [0]) "abc" 2).fileExists = true := by
  refine ⟨by decide, by decide⟩

/-- C2 amended: when a completed fallback transfer fails post-transfer
verification (size or MD5 mismatch) the call returns false and the written
file remains on disk; the file is deleted only when an exception
interrupts the transfer. -/
theorem fallback_mismatch_amended (content : List Nat) (m : String) (size : Nat)
    (w : List Nat) (h : content.length ≠ size ∨ calculate_md5 content ≠ m) :
    fetch_file_fallback (StreamOutcome.ok content) m size = ⟨false, true⟩
    ∧ fetch_file_fallback (StreamOutcome.raiseAfter w) m size = ⟨false, false⟩ := by
  constructor
  · show (if content.length ≠ size then (⟨false, true⟩ : FallbackResult)
        else if calculate_md5 content ≠ m then ⟨false, true⟩ else ⟨true, true⟩) = ⟨false, true⟩
    rcases h with h | h
    · rw [if_pos h]
    · by_cases hl : content.length ≠ size
      · rw [if_pos hl]
      · rw [if_neg hl, if_pos h]
  · rfl

/-- Witness for the amended C2 theorem at a concrete mismatching input. -/
theorem fallback_mismatch_amended_witness :
    fetch_file_fallback (StreamOutcome.ok [0]) "abc" 2 = ⟨false, true⟩
    ∧ fetch_file_fallback (StreamOutcome.raiseAfter [0]) "abc" 2 = ⟨false, false⟩ :=
  fallback_mismatch_amended [0] "abc" 2 [0] (Or.inl (by decide))

/-!
C3 — cache round-trip and expiry.
-/

/-- C3: a `save_cache` at time `t` followed by a `load_cache` of the same
path at time `now` returns the stored payload exactly when fewer than 3600
seconds elapsed, and an entry 3600 or more seconds old is treated as
absent regardless of its payload. -/
theorem load_cache_save_cache {α : Type} (store : String → Option (CacheData α))
    (path : String) (payload : α) (t now : Int) :
    load_cache now (save_cache t store path payload) path
      = if now - t < 3600 then some payload else none := by
  unfold load_cache save_cache
  rw [if_pos rfl]

theorem cache_roundtrip_and_expiry {α : Type} (store : String → Option (CacheData α))
    (path : String) (payload : α) (t now : Int) :
    (load_cache now (save_cache t store path payload) path = some payload ↔ now - t < 3600)
    ∧ (3600 ≤ now - t → load_cache now (save_cache t store path payload) path = none) := by
  constructor
  · rw [load_cache_save_cache]
    by_cases h : now - t < 3600 <;> simp [h]
  · intro h
    rw [load_cache_save_cache, if_neg (by omega)]

/-- Witness for C3: a concrete round-trip 10 seconds after the put, and a
concrete miss exactly 3600 seconds after the put. -/
theorem cache_roundtrip_and_expiry_witness :
    load_cache 10 (save_cache 0 (fun _ => (none : Option (CacheData (List Nat))))
        ".cache/denoising/datasets.json" [42]) ".cache/denoising/datasets.json" = some [42]
    ∧ load_cache 3600 (save_cache 0 (fun _ => (none : Option (CacheData (List Nat))))
        ".cache/denoising/datasets.json" [42]) ".cache/denoising/datasets.json" = none :=
  ⟨(cache_roundtrip_and_expiry _ _ _ 0 10).1.mpr (by decide),
   (cache_roundtrip_and_expiry _ _ _ 0 3600).2 (by decide)⟩

/-!
C4 — idempotence of a dataset fetch when everything is present at its
expected size.
-/

/-- C4: when the dataset directory exists and every file of a non-empty
dataset is present locally at exactly its expected size, a re-run of
`fetch_entire_dataset` (with or without the confirmation-skip flag)
dispatches zero transfers, shows no prompt, and returns success; and the
worker treats any size-matching present file as already satisfied — it
reports success without dispatching a transfer (hence without any checksum
re-verification). -/
theorem idempotent_refetch (env : DatasetEnv) (files : List FileRecord) (skip : Bool)
    (f : FileRecord) (hne : files ≠ []) (hdir : env.dirExists = true)
    (hall : ∀ g ∈ files, env.fs g.name = some g.size) (hf : f ∈ files) :
    fetch_entire_dataset env files skip = ⟨true, 0, false⟩
    ∧ download_single_file_worker env f = ⟨true, false⟩ := by
  have hw : ∀ g ∈ files, download_single_file_worker env g = ⟨true, false⟩ := by
    intro g hg
    unfold download_single_file_worker
    rw [if_pos (hall g hg)]
  have hr : run_workers env files = ⟨true, 0, false⟩ := by
    unfold run_workers
    have h1 : (files.map (download_single_file_worker env)).countP
        (fun r => r.success) = files.length := by
      rw [List.countP_map]
      rw [show files.length = files.length from rfl, List.countP_eq_length]
      intro g hg
      simp [Function.comp, hw g hg]
    have h2 : (files.map (download_single_file_worker env)).countP
        (fun r => r.transferred) = 0 := by
      rw [List.countP_map, List.countP_eq_zero]
      intro g hg
      simp [Function.comp, hw g hg]
    simp [h1, h2]
  refine ⟨?_, hw f hf⟩
  unfold fetch_entire_dataset
  rw [if_neg hne]
  have hfil : files.filter (fun f => (env.fs f.name).isNone) = [] := by
    rw [List.filter_eq_nil_iff]
    intro g hg
    simp [hall g hg]
  cases skip with
  | true => simpa using hr
  | false => simp [hdir, hfil]

/-- Witness for C4 at a concrete one-file dataset whose file is on disk at
its expected size. -/
theorem idempotent_refetch_witness :
    fetch_entire_dataset datasetEnv0 [file0] false = ⟨true, 0, false⟩
    ∧ download_single_file_worker datasetEnv0 file0 = ⟨true, false⟩ :=
  idempotent_refetch datasetEnv0 [file0] false file0 (by decide) (by decide)
    (by decide) (by decide)

/-!
C6 — prefix invariant of file listings.
-/

/-- C6 counterexample: for the task `cell_cell_communication_source_target`
the listing prefix is built from the task's S3 path
`cell_cell_communication`, so the single returned record's key does not
start with `resources/cell_cell_communication_source_target/datasets/d/`
(the map shows the listing returns exactly one record and the claimed
prefix test is false on it). -/
theorem prefix_invariant_counterexample :
    (list_datasets_files "cell_cell_communication_source_target" "d"
        [⟨"resources/cell_cell_communication/datasets/d/x.h5", some 5, some "\"ab\""⟩]).map
      (fun r => strStartsWith r.key
        "resources/cell_cell_communication_source_target/datasets/d/")
      = [false] := by
  decide

/-- C6 amended: every record returned by the file-listing branch has a key
that starts with `resources/<s3Path(task)>/datasets/<datasetName>/`, where
`s3Path` maps the two cell-cell-communication task names to
`cell_cell_communication` and is the identity otherwise, and no returned
key ends with `/`. -/
theorem prefix_invariant_amended (task dataset_name : String) (entries : List Entry)
    (r : FileRecord) (hr : r ∈ list_datasets_files task dataset_name entries) :
    strStartsWith r.key
        ("resources/" ++ get_s3_task_path task ++ "/datasets/" ++ dataset_name ++ "/") = true
    ∧ strEndsWith r.key "/" = false := by
  unfold list_datasets_files at hr
  simp only [List.mem_filterMap] at hr
  obtain ⟨e, he, hfe⟩ := hr
  by_cases hc : strStartsWith e.key
      ("resources/" ++ get_s3_task_path task ++ "/datasets/" ++ dataset_name ++ "/")
      && !(strEndsWith e.key "/")
  · rw [if_pos hc] at hfe
    obtain ⟨h1, h2⟩ := Bool.and_eq_true_iff.mp hc
    cases hfe
    exact ⟨h1, Bool.not_eq_true' .. |>.mp h2⟩
  · rw [if_neg hc] at hfe
    cases hfe

/-- Witness for the amended C6 theorem at a concrete listing entry of a
mapped task. -/
theorem prefix_invariant_amended_witness :
    strStartsWith "resources/cell_cell_communication/datasets/d/x.h5"
        ("resources/" ++ get_s3_task_path "cell_cell_communication_source_target"
          ++ "/datasets/" ++ "d" ++ "/") = true
    ∧ strEndsWith "resources/cell_cell_communication/datasets/d/x.h5" "/" = false :=
  prefix_invariant_amended "cell_cell_communication_source_target" "d"
    [⟨"resources/cell_cell_communication/datasets/d/x.h5", some 5, some "\"ab\""⟩]
    ⟨"x.h5", "resources/cell_cell_communication/datasets/d/x.h5", 5, "ab"⟩
    (by decide)

/-!
C7 — the task-level confirmation phrase gate.
-/

/-- C7: whenever the stripped confirmation response differs from the exact
phrase `yes I am sure` — in particular for a plain `yes` or `no` —
`fetch_task` dispatches zero transfers and returns failure; the gate sits
before any transfer, so a refusal leaves `attempts` at 0. -/
theorem confirmation_gate (env : TaskEnv) (datasets : List DatasetSummary)
    (rawInput : String) (h : pyStrip rawInput ≠ "yes I am sure") :
    (fetch_task env datasets rawInput).success = false
    ∧ (fetch_task env datasets rawInput).attempts = 0 := by
  unfold fetch_task
  by_cases hd : datasets = []
  · rw [if_pos hd]
    exact ⟨rfl, rfl⟩
  · rw [if_neg hd, if_pos h]
    exact ⟨rfl, rfl⟩

/-- Witness for C7: the simple answer `yes` (not the required phrase) is
refused with no transfers. -/
theorem confirmation_gate_witness :
    (fetch_task taskEnv0 [⟨"cellxgene", 100, 1⟩] "yes").success = false
    ∧ (fetch_task taskEnv0 [⟨"cellxgene", 100, 1⟩] "yes").attempts = 0 :=
  confirmation_gate taskEnv0 [⟨"cellxgene", 100, 1⟩] "yes" (by decide)

/-!
C8 — single-file fetch and the missing-file case.
-/

/-- C8 counterexample: with a listing that has no record named
`missing.h5`, `fetch_single_file` returns the plain boolean `False`
(`Except.ok` with no transfer) — it does not surface a typed
`NotFoundError`. -/
theorem single_file_not_found_counterexample :
    fetch_single_file transferEnv0 [file0] "missing.h5" = Except.ok ⟨false, false⟩
    ∧ fetch_single_file transferEnv0 [file0] "missing.h5"
        ≠ Except.error DatasetsError.notFound := by
  have hok : fetch_single_file transferEnv0 [file0] "missing.h5"
      = Except.ok ⟨false, false⟩ := rfl
  refine ⟨hok, ?_⟩
  intro hcon
  rw [hok] at hcon
  exact Except.noConfusion hcon

/-- C8 amended: the target is resolved by exact name match within the
dataset's file listing, and when no record with that exact name exists the
call fails by returning the boolean `False` with no transfer dispatched
and no typed error raised (the source prints a message and returns
`False`). -/
theorem single_file_not_found_amended (env : TransferEnv) (files : List FileRecord)
    (filename : String) (h : ∀ f ∈ files, f.name ≠ filename) :
    fetch_single_file env files filename = Except.ok ⟨false, false⟩ := by
  unfold fetch_single_file
  have hfind : files.find? (fun fi => fi.name == filename) = none := by
    rw [List.find?_eq_none]
    intro f hf
    simp [h f hf]
  rw [hfind]

/-- Witness for the amended C8 theorem at a concrete listing. -/
theorem single_file_not_found_amended_witness :
    fetch_single_file transferEnv0 [file0] "state.yaml" = Except.ok ⟨false, false⟩ :=
  single_file_not_found_amended transferEnv0 [file0] "state.yaml" (by decide)

/-!
C9 — empty listings are failures.
-/

/-- C9: an empty dataset listing makes `fetch_task` return false with no
prompt and no transfer, and an empty file listing makes
`fetch_entire_dataset` return false (for either confirmation mode). -/
theorem empty_listing_fails (env : TaskEnv) (rawInput : String)
    (denv : DatasetEnv) (skip : Bool) :
    fetch_task env [] rawInput = ⟨false, 0, false⟩
    ∧ fetch_entire_dataset denv [] skip = ⟨false, 0, false⟩ := by
  constructor
  · rfl
  · rfl

/-!
C10 — the presence-only missing-data computation of the confirming path.
-/

/-- C10: in the confirming (non-skip) path, a file counts as already
downloaded when a file of that name merely exists at the destination, so
when the dataset directory exists and every file of a non-empty dataset is
present — at arbitrary, possibly wrong sizes — the call returns success
immediately with zero transfers and no confirmation prompt. -/
theorem presence_only_short_circuit (env : DatasetEnv) (files : List FileRecord)
    (hne : files ≠ []) (hdir : env.dirExists = true)
    (hex : ∀ f ∈ files, (env.fs f.name).isSome) :
    fetch_entire_dataset env files false = ⟨true, 0, false⟩ := by
  unfold fetch_entire_dataset
  rw [if_neg hne]
  have hfil : files.filter (fun f => (env.fs f.name).isNone) = [] := by
    rw [List.filter_eq_nil_iff]
    intro g hg
    simp only [Option.isNone_iff_eq_none]
    intro hcon
    have hg2 := hex g hg
    rw [hcon] at hg2
    simp at hg2
  simp [hdir, hfil]

/-- Witness for C10: a one-file dataset whose file is on disk at 999 bytes
while 100 are expected still short-circuits to success. -/
theorem presence_only_short_circuit_witness :
    fetch_entire_dataset wrongSizeEnv0 [file0] false = ⟨true, 0, false⟩ :=
  presence_only_short_circuit wrongSizeEnv0 [file0] (by decide) (by decide) (by decide)
